import Mathlib

/-!
Shallow embedding of the Tracelink API client
(src/src/tracelink-client.js, CommonJS build, together with the ESM build
src/unnamed/part_000). The client is a thin facade layer over a single
request dispatcher; the only logic is the query-parameter normalizer
buildOrderParams, the header construction and the response-envelope
handling in TracelinkClient.request, and the endpoint-path/body assembly
of the facade methods. All of those are pure given their inputs, so each
is embedded as a Lean function; the HTTP transport itself is out of scope
and a parsed response (JSON body plus the one inspected header) is taken
as input to the response-handling phase.
-/

/-- JavaScript primitive values that flow through the facade bodies:
identifiers and field values are strings or numbers (number|string in the
type declarations; ids are integral). -/
inductive JsVal where
  | str (s : String)
  | num (n : Int)
  deriving DecidableEq

/-- JavaScript truthiness for a string-or-number value: the empty string
and the number 0 are falsy. -/
def JsVal.truthy : JsVal → Bool
  | .str s => s ≠ ""
  | .num n => n ≠ 0

/-- Template-literal interpolation of a value into a path string. -/
def JsVal.render : JsVal → String
  | .str s => s
  | .num n => toString n

/-- Truthiness of an optional (possibly undefined) value. -/
def truthyOpt : Option JsVal → Bool
  | some v => v.truthy
  | none => false

/-- Rendering of an optional value; only reached under a truthiness guard,
so the undefined arm is never used by the embedded code. -/
def renderOpt : Option JsVal → String
  | some v => v.render
  | none => ""

/-- The value of the sort option: absent (or null), a single string, or an
array of strings. An array is always truthy in JavaScript, even when
empty; a string is truthy exactly when non-empty. -/
inductive SortOpt where
  | undef
  | str (s : String)
  | arr (xs : List String)
  deriving DecidableEq

/-- Truthiness of the sort option, as tested by the source at
src/src/tracelink-client.js line 103. -/
def SortOpt.truthy : SortOpt → Bool
  | .undef => false
  | .str s => s ≠ ""
  | .arr _ => true

/-- The value stored into order.sort: Array.isArray dispatch, joining an
array with commas and passing a string through
(src/src/tracelink-client.js line 104). The undef arm is unreachable
under the truthiness guard. -/
def SortOpt.joined : SortOpt → String
  | .undef => ""
  | .str s => s
  | .arr xs => String.intercalate "," xs

/-- ListOptions (OrderParams in the type declarations): sort, reverse,
limit, page, filter, filter_or. limit and page are tested against
undefined, so they are Options of their value; filter is an object
(truthy whenever present, modelled as an association list of
field/expression pairs); reverse and filter_or are tested for
truthiness. -/
structure ListOptions where
  sort : SortOpt := .undef
  reverse : Bool := false
  limit : Option Int := none
  page : Option Int := none
  filter : Option (List (String × String)) := none
  filter_or : Bool := false
  deriving DecidableEq

/-- The nested order object assembled by buildOrderParams: each field is
present (some) exactly when the corresponding assignment in the source
ran. -/
structure OrderObj where
  sort : Option String := none
  reverse : Option Int := none
  limit : Option Int := none
  page : Option Int := none
  filter : Option (List (String × String)) := none
  filter_or : Option Bool := none
  deriving DecidableEq

/-- Object.keys(order).length for the assembled order object. -/
def OrderObj.keyCount (o : OrderObj) : Nat :=
  (if o.sort.isSome then 1 else 0) +
  (if o.reverse.isSome then 1 else 0) +
  (if o.limit.isSome then 1 else 0) +
  (if o.page.isSome then 1 else 0) +
  (if o.filter.isSome then 1 else 0) +
  (if o.filter_or.isSome then 1 else 0)

/-- A request body: the empty object, the order wrapper produced by
buildOrderParams, or an object wrapper as sent by create/update/delete
facades. Object fields are kept as an association list in literal order;
a later duplicate key overrides an earlier one, as in a JavaScript
object literal. -/
inductive Body where
  | empty
  | order (o : OrderObj)
  | object (fields : List (String × JsVal))
  deriving DecidableEq

/-- Lookup of a key in an object literal given as an association list:
the last write wins, matching JavaScript object-literal semantics where
a later duplicate key (for example from a spread) overrides an earlier
one. -/
def objGet (fields : List (String × JsVal)) (k : String) : Option JsVal :=
  fields.foldl (fun acc p => if p.1 = k then some p.2 else acc) none

/-- Lookup of a key in a body (none for non-object bodies). -/
def Body.get : Body → String → Option JsVal
  | .object fields, k => objGet fields k
  | _, _ => none

/-- The order object assembled by buildOrderParams before the key-count
check (src/src/tracelink-client.js lines 101-125): sort is included when
truthy, reverse becomes the integer 1 when truthy, limit and page pass
through whenever not undefined (zero included), filter passes through
when truthy (any present object), filter_or becomes true when truthy. -/
def builtOrder (options : ListOptions) : OrderObj :=
  { sort := if options.sort.truthy then some options.sort.joined else none
    reverse := if options.reverse then some 1 else none
    limit := options.limit
    page := options.page
    filter := options.filter
    filter_or := if options.filter_or then some true else none }

/-- buildOrderParams (src/src/tracelink-client.js lines 100-128): returns
the wrapper object with the order key exactly when at least one key was
assigned, and the empty object otherwise. -/
def buildOrderParams (options : ListOptions) : Body :=
  if 0 < (builtOrder options).keyCount then .order (builtOrder options) else .empty

/-- Projection of the sort field out of a result body. -/
def Body.orderSort : Body → Option String
  | .order o => o.sort
  | _ => none

/-- Projection of the page field out of a result body. -/
def Body.orderPage : Body → Option Int
  | .order o => o.page
  | _ => none

/-- Projection of the limit field out of a result body. -/
def Body.orderLimit : Body → Option Int
  | .order o => o.limit
  | _ => none

/-- The base URL constant of both builds. -/
def BASE_URL : String := "https://tracelink.app/rest"

/-- Client configuration held by TracelinkClient after construction:
access_token (required), format (default json), charset (default
UTF-8). -/
structure ClientConfig where
  access_token : String
  format : String := "json"
  charset : String := "UTF-8"
  deriving DecidableEq

/-- Per-call request options: an optional idempotency key, tested for
truthiness before the Idempotency-Key header is added. -/
structure RequestOptions where
  idempotency_key : Option String := none
  deriving DecidableEq

/-- The outgoing HTTP request handed to fetch by TracelinkClient.request:
url, method, headers and serialized body. -/
structure WireRequest where
  url : String
  method : String
  headers : List (String × String)
  body : Body
  deriving DecidableEq

/-- Truthiness of an optional string (null or empty is falsy), as used on
options.idempotency_key and on the cache header value. -/
def truthyStr : Option String → Bool
  | some s => s ≠ ""
  | none => false

/-- The request-construction phase of TracelinkClient.request
(src/src/tracelink-client.js lines 44-65): base URL plus endpoint, POST
method, the token/content-type/accept headers, the charset header only
when charset is CP850, and the idempotency header only when the option is
truthy. -/
def TracelinkClient.requestWire (c : ClientConfig) (endpoint : String)
    (body : Body) (options : RequestOptions) : WireRequest :=
  let headers : List (String × String) :=
    [("x-access-token", c.access_token),
     ("Content-Type", "application/json"),
     ("Accept", if c.format = "xml" then "application/xml" else "application/json")]
  let headers := if c.charset = "CP850" then headers ++ [("X-Charset", "CP850")] else headers
  let headers :=
    match options.idempotency_key with
    | some k => if k ≠ "" then headers ++ [("Idempotency-Key", k)] else headers
    | none => headers
  { url := BASE_URL ++ endpoint, method := "POST", headers := headers, body := body }

/-- The parsed response envelope: status, code, message, the two cache
annotation fields written by the dispatcher, and the remaining
resource-specific fields kept abstract. -/
structure Envelope where
  status : String
  code : Int
  message : String
  cachedFlag : Option Bool := none
  idemKeyEcho : Option String := none
  extra : List (String × JsVal) := []
  deriving DecidableEq

/-- TracelinkError as raised by the dispatcher: message and code from the
envelope, with the full envelope attached as response. -/
structure TracelinkError where
  message : String
  code : Int
  response : Envelope
  deriving DecidableEq

/-- What the dispatcher sees of the fetch result: the JSON-parsed body
and the X-ResultFromCache header (none when the header is absent). -/
structure HttpResponse where
  body : Envelope
  resultFromCache : Option String := none
  deriving DecidableEq

/-- The cache-annotation step of TracelinkClient.request
(src/src/tracelink-client.js lines 70-74): when the cache header value is
truthy, the envelope is annotated with the cache flag set to true and the
echoed idempotency key; otherwise the envelope is untouched. -/
def annotateCache (data : Envelope) (cached_key : Option String) : Envelope :=
  match cached_key with
  | some k =>
      if k ≠ "" then { data with cachedFlag := some true, idemKeyEcho := some k } else data
  | none => data

/-- The response-handling phase of TracelinkClient.request
(src/src/tracelink-client.js lines 67-82): annotate the parsed envelope
from the cache header, then raise a TracelinkError carrying message, code
and the (annotated) envelope when its status is the error status, and
return the (annotated) envelope otherwise. -/
def TracelinkClient.requestResult (r : HttpResponse) : Except TracelinkError Envelope :=
  let data := annotateCache r.body r.resultFromCache
  if data.status = "error" then
    .error { message := data.message, code := data.code, response := data }
  else
    .ok data

/-- The envelope a caller can observe from a dispatch: the returned one on
success, the one attached to the raised error on failure. -/
def resultEnvelope : Except TracelinkError Envelope → Envelope
  | .ok e => e
  | .error err => err.response

/-- A facade call as handed to the dispatcher: the endpoint path and the
body. Request options, when a facade forwards them, are passed through
unchanged, so they are not repeated here. -/
structure ApiCall where
  endpoint : String
  body : Body
  deriving DecidableEq

/-- company.listDepartments (src/src/tracelink-client.js line 151). -/
def CompanyClient.listDepartments (options : ListOptions) : ApiCall :=
  { endpoint := "/company/dept/list", body := buildOrderParams options }

/-- user.list (src/src/tracelink-client.js line 177). -/
def UserClient.list (options : ListOptions) : ApiCall :=
  { endpoint := "/user/list", body := buildOrderParams options }

/-- user.listGroups (src/src/tracelink-client.js line 186). -/
def UserClient.listGroups (options : ListOptions) : ApiCall :=
  { endpoint := "/user/group/list", body := buildOrderParams options }

/-- order.list (src/src/tracelink-client.js line 241). -/
def OrderClient.list (options : ListOptions) : ApiCall :=
  { endpoint := "/tracelink/order/list", body := buildOrderParams options }

/-- order.update (src/src/tracelink-client.js lines 252-256): object body
listing the positional order_id first and then spreading the data
fields. -/
def OrderClient.update (order_id : JsVal) (data : List (String × JsVal)) : ApiCall :=
  { endpoint := "/tracelink/order/update",
    body := .object (("order_id", order_id) :: data) }

/-- order.delete (src/src/tracelink-client.js lines 263-267). -/
def OrderClient.delete (order_id : JsVal) : ApiCall :=
  { endpoint := "/tracelink/order/update",
    body := .object [("order_id", order_id), ("xdelete", .str "1")] }

/-- order.listModule (src/src/tracelink-client.js lines 310-319): the
order-id segment is appended only when order_id is truthy, and the
suborder segment only additionally when order_sub_id is truthy. -/
def OrderClient.listModule (module_name : String) (order_id : Option JsVal)
    (order_sub_id : Option JsVal) (options : ListOptions) : ApiCall :=
  let endpoint := "/tracelink/order/list/module/" ++ module_name
  let endpoint :=
    if truthyOpt order_id then
      let endpoint := endpoint ++ "/" ++ renderOpt order_id
      if truthyOpt order_sub_id then endpoint ++ "/" ++ renderOpt order_sub_id else endpoint
    else endpoint
  { endpoint := endpoint, body := buildOrderParams options }

/-- order.updateModule (src/src/tracelink-client.js lines 328-332). -/
def OrderClient.updateModule (module_name : String) (data : List (String × JsVal)) : ApiCall :=
  { endpoint := "/tracelink/order/update/object/module/" ++ module_name,
    body := .object data }

/-- order.deleteModule (src/src/tracelink-client.js lines 341-345). -/
def OrderClient.deleteModule (module_name : String) (id_field : String)
    (id_value : JsVal) : ApiCall :=
  { endpoint := "/tracelink/order/update/object/module/" ++ module_name,
    body := .object [(id_field, id_value), ("xdelete", .str "1")] }

/-- suborder.create (src/src/tracelink-client.js lines 363-367): object
body listing parent_order_id first and then spreading the data fields. -/
def SuborderClient.create (parent_order_id : JsVal) (data : List (String × JsVal)) : ApiCall :=
  { endpoint := "/tracelink/suborder/create",
    body := .object (("parent_order_id", parent_order_id) :: data) }

/-- The identifiers bound at module scope in src/src/tracelink-client.js:
the const BASE_URL, the function buildOrderParams, and the declared
classes. No other binding of the module (and no CommonJS wrapper or
global binding) has a name used by SuborderClient.list. -/
def cjsModuleBindings : List String :=
  ["BASE_URL", "TracelinkClient", "TracelinkError", "buildOrderParams",
   "CompanyClient", "UserClient", "OrderClient", "SuborderClient",
   "ObjectClient", "UtilClient"]

/-- The callee identifier written in suborder.list at
src/src/tracelink-client.js line 384. -/
def suborderListCallee : String := "build_order_params"

/-- suborder.list in the CommonJS build (src/src/tracelink-client.js
lines 383-385): the method applies the identifier build_order_params to
the options. Evaluating an identifier that is bound nowhere in scope
raises a ReferenceError, so the call fails before any dispatch; were the
identifier bound, it would denote the normalizer and dispatch would
receive buildOrderParams applied to the options. -/
def SuborderClient.list (options : ListOptions) : Except String ApiCall :=
  if suborderListCallee ∈ cjsModuleBindings then
    .ok { endpoint := "/tracelink/suborder/list", body := buildOrderParams options }
  else
    .error "ReferenceError: build_order_params is not defined"

/-- suborder.list in the ESM build (src/unnamed/part_000 lines 234-236),
which spells the callee buildOrderParams. -/
def EsmSuborderClient.list (options : ListOptions) : ApiCall :=
  { endpoint := "/tracelink/suborder/list", body := buildOrderParams options }

/-- suborder.update (src/src/tracelink-client.js lines 394-398). -/
def SuborderClient.update (order_sub_id : JsVal) (data : List (String × JsVal)) : ApiCall :=
  { endpoint := "/tracelink/suborder/update",
    body := .object (("order_sub_id", order_sub_id) :: data) }

/-- suborder.delete (src/src/tracelink-client.js lines 405-409). -/
def SuborderClient.delete (order_sub_id : JsVal) : ApiCall :=
  { endpoint := "/tracelink/suborder/update",
    body := .object [("order_sub_id", order_sub_id), ("xdelete", .str "1")] }

/-- object.list (src/src/tracelink-client.js lines 461-463). -/
def ObjectClient.list (module_name : String) (options : ListOptions) : ApiCall :=
  { endpoint := "/object/list/module/" ++ module_name, body := buildOrderParams options }

/-- object.update (src/src/tracelink-client.js lines 472-476). -/
def ObjectClient.update (module_name : String) (data : List (String × JsVal)) : ApiCall :=
  { endpoint := "/object/update/" ++ module_name, body := .object data }

/-- object.delete (src/src/tracelink-client.js lines 485-489). -/
def ObjectClient.delete (module_name : String) (id_field : String)
    (id_value : JsVal) : ApiCall :=
  { endpoint := "/object/update/" ++ module_name,
    body := .object [(id_field, id_value), ("xdelete", .str "1")] }

/-- object.listRelations (src/src/tracelink-client.js lines 535-541): the
target-id segment is appended only when to_module_id is truthy. -/
def ObjectClient.listRelations (from_module to_module : String)
    (to_module_id : Option JsVal) (options : ListOptions) : ApiCall :=
  let endpoint := "/object/module/list/" ++ from_module ++ "/to/" ++ to_module
  let endpoint :=
    if truthyOpt to_module_id then endpoint ++ "/" ++ renderOpt to_module_id else endpoint
  { endpoint := endpoint, body := buildOrderParams options }

/-- object.updateRelation (src/src/tracelink-client.js lines 551-555). -/
def ObjectClient.updateRelation (from_module to_module : String)
    (data : List (String × JsVal)) : ApiCall :=
  { endpoint := "/object/module/update/" ++ from_module ++ "/to/" ++ to_module,
    body := .object data }

/-- object.deleteRelation (src/src/tracelink-client.js lines 565-569). -/
def ObjectClient.deleteRelation (from_module to_module : String)
    (id_field : String) (id_value : JsVal) : ApiCall :=
  { endpoint := "/object/module/update/" ++ from_module ++ "/to/" ++ to_module,
    body := .object [(id_field, id_value), ("xdelete", .str "1")] }

/-- util.listDocuments (src/src/tracelink-client.js lines 586-588). -/
def UtilClient.listDocuments (module_name : String) (options : ListOptions) : ApiCall :=
  { endpoint := "/util/doc/list/module/" ++ module_name, body := buildOrderParams options }

/-! Helper lemmas shared by the claim theorems. -/

/-- Folding the last-wins lookup step from any accumulator: a matching entry
in the list wins, otherwise the accumulator survives. -/
lemma objGet_foldl (fields : List (String × JsVal)) (k : String) (a : Option JsVal) :
    fields.foldl (fun acc p => if p.1 = k then some p.2 else acc) a
      = (objGet fields k).or a := by
  induction fields generalizing a with
  | nil => simp [objGet]
  | cons p fields ih =>
      show List.foldl _ (if p.1 = k then some p.2 else a) fields = _
      rw [ih]
      show _ = (List.foldl _ (if p.1 = k then some p.2 else none) fields).or a
      rw [ih]
      cases objGet fields k with
      | some v => simp
      | none =>
          by_cases h : p.1 = k <;> simp [h]

/-- Lookup in a literal that lists one entry and then spreads further
fields: a binding of the key inside the spread overrides the leading
entry. -/
lemma objGet_cons (p : String × JsVal) (fields : List (String × JsVal)) (k : String) :
    objGet (p :: fields) k = (objGet fields k).or (if p.1 = k then some p.2 else none) := by
  show List.foldl _ (if p.1 = k then some p.2 else none) fields = _
  rw [objGet_foldl]

/-- The cache-annotation step never changes status, message or code. -/
lemma annotateCache_preserves (data : Envelope) (ck : Option String) :
    (annotateCache data ck).status = data.status
      ∧ (annotateCache data ck).message = data.message
      ∧ (annotateCache data ck).code = data.code := by
  cases ck with
  | none => exact ⟨rfl, rfl, rfl⟩
  | some k =>
      by_cases h : k = "" <;> simp [annotateCache, h]

/-- The envelope observable from a dispatch (returned on success, attached
to the raised error on failure) is always the annotated parsed body. -/
lemma resultEnvelope_requestResult (r : HttpResponse) :
    resultEnvelope (TracelinkClient.requestResult r) = annotateCache r.body r.resultFromCache := by
  unfold TracelinkClient.requestResult
  by_cases h : (annotateCache r.body r.resultFromCache).status = "error" <;>
    simp [h, resultEnvelope]

/-- The sort field of the result body is the sort field of the assembled
order object (when the wrapper is omitted, no key was assigned at all). -/
lemma orderSort_buildOrderParams (o : ListOptions) :
    (buildOrderParams o).orderSort = (builtOrder o).sort := by
  unfold buildOrderParams
  split
  · rfl
  · rename_i h
    cases hs : (builtOrder o).sort with
    | none => rfl
    | some s =>
        exact absurd (by simp [OrderObj.keyCount, hs]) h

/-- The page field of the result body is the page field of the assembled
order object. -/
lemma orderPage_buildOrderParams (o : ListOptions) :
    (buildOrderParams o).orderPage = (builtOrder o).page := by
  unfold buildOrderParams
  split
  · rfl
  · rename_i h
    cases hs : (builtOrder o).page with
    | none => rfl
    | some n =>
        refine absurd ?_ h
        simp [OrderObj.keyCount, hs]

/-- The limit field of the result body is the limit field of the assembled
order object. -/
lemma orderLimit_buildOrderParams (o : ListOptions) :
    (buildOrderParams o).orderLimit = (builtOrder o).limit := by
  unfold buildOrderParams
  split
  · rfl
  · rename_i h
    cases hs : (builtOrder o).limit with
    | none => rfl
    | some n =>
        refine absurd ?_ h
        simp [OrderObj.keyCount, hs]

/-- C1: every list-style facade passes the normalizer result as the dispatch
body — true of company.listDepartments, user.list, user.listGroups,
order.list, order.listModule, object.list, object.listRelations,
util.listDocuments and the ESM suborder.list, but false of the CommonJS
suborder.list, whose callee identifier build_order_params is bound nowhere
in the module, so the call raises a ReferenceError before any dispatch. -/
theorem list_facades_pass_normalizer_except_cjs_suborder_list :
    (cjsModuleBindings.contains suborderListCallee = false
      ∧ ∀ o : ListOptions, SuborderClient.list o =
          .error "ReferenceError: build_order_params is not defined")
  ∧ (∀ o : ListOptions, (CompanyClient.listDepartments o).body = buildOrderParams o)
  ∧ (∀ o : ListOptions, (UserClient.list o).body = buildOrderParams o)
  ∧ (∀ o : ListOptions, (UserClient.listGroups o).body = buildOrderParams o)
  ∧ (∀ o : ListOptions, (OrderClient.list o).body = buildOrderParams o)
  ∧ (∀ (m : String) (i s : Option JsVal) (o : ListOptions),
      (OrderClient.listModule m i s o).body = buildOrderParams o)
  ∧ (∀ (m : String) (o : ListOptions), (ObjectClient.list m o).body = buildOrderParams o)
  ∧ (∀ (a b : String) (i : Option JsVal) (o : ListOptions),
      (ObjectClient.listRelations a b i o).body = buildOrderParams o)
  ∧ (∀ (m : String) (o : ListOptions), (UtilClient.listDocuments m o).body = buildOrderParams o)
  ∧ (∀ o : ListOptions, (EsmSuborderClient.list o).body = buildOrderParams o) := by
  refine ⟨⟨by decide, fun o => ?_⟩, fun o => rfl, fun o => rfl, fun o => rfl, fun o => rfl,
    fun m i s o => rfl, fun m o => rfl, fun a b i o => rfl, fun m o => rfl, fun o => rfl⟩
  simp [SuborderClient.list, suborderListCallee, cjsModuleBindings]

/-- C2 counterexample: the cache annotation runs before the status check, so
for this error-status response with a cache header the envelope attached to
the raised error does carry the cache annotation, contradicting the claim
that an error envelope carries none. -/
theorem error_envelope_carries_cache_fields :
    TracelinkClient.requestResult
      { body := { status := "error", code := 7, message := "boom" },
        resultFromCache := some "idem-1" } =
      .error { message := "boom", code := 7,
               response := { status := "error", code := 7, message := "boom",
                             cachedFlag := some true, idemKeyEcho := some "idem-1" } }
    ∧ (resultEnvelope (TracelinkClient.requestResult
        { body := { status := "error", code := 7, message := "boom" },
          resultFromCache := some "idem-1" })).cachedFlag = some true :=
  ⟨rfl, rfl⟩

/-- C2 (amended): the cache annotation is applied before the status check, on
every response whose cache header is present and non-empty, regardless of the
envelope status — in particular the envelope attached to a raised error for a
cached error response carries the cache flag and the echoed key; when the
header is absent or empty, the observable envelope is the parsed body
unchanged on both paths. -/
theorem cache_fields_set_before_status_check :
    (∀ (r : HttpResponse) (k : String), r.resultFromCache = some k → k ≠ "" →
      (resultEnvelope (TracelinkClient.requestResult r)).cachedFlag = some true
        ∧ (resultEnvelope (TracelinkClient.requestResult r)).idemKeyEcho = some k)
  ∧ (∀ r : HttpResponse, truthyStr r.resultFromCache = false →
      resultEnvelope (TracelinkClient.requestResult r) = r.body) := by
  constructor
  · intro r k hk hne
    rw [resultEnvelope_requestResult, hk]
    simp [annotateCache, hne]
  · intro r h
    rw [resultEnvelope_requestResult]
    cases hc : r.resultFromCache with
    | none => simp [annotateCache]
    | some k =>
        rw [hc] at h
        have hk : k = "" := by simpa [truthyStr] using h
        simp [annotateCache, hk]

/-- Witness for the amended C2 theorem at concrete inputs: a cached ok
response is annotated, and a header-free error response is attached
unchanged. -/
theorem cache_fields_set_before_status_check_witness :
    ((resultEnvelope (TracelinkClient.requestResult
        { body := { status := "ok", code := 0, message := "", extra := [] },
          resultFromCache := some "key-9" })).cachedFlag = some true
      ∧ (resultEnvelope (TracelinkClient.requestResult
          { body := { status := "ok", code := 0, message := "", extra := [] },
            resultFromCache := some "key-9" })).idemKeyEcho = some "key-9")
    ∧ resultEnvelope (TracelinkClient.requestResult
        { body := { status := "error", code := 3, message := "bad" },
          resultFromCache := none }) =
        { status := "error", code := 3, message := "bad" } :=
  ⟨cache_fields_set_before_status_check.1
      { body := { status := "ok", code := 0, message := "", extra := [] },
        resultFromCache := some "key-9" } "key-9" rfl (by decide),
   cache_fields_set_before_status_check.2
      { body := { status := "error", code := 3, message := "bad" },
        resultFromCache := none } rfl⟩

/-- C3: annotating never changes status, message or code; the dispatcher
raises exactly when the envelope status equals the error status, the raised
error carries the envelope message and code and the full (annotated)
envelope as its attached response, and any other status returns the envelope
unchanged apart from the optional cache annotation. -/
theorem dispatcher_raises_iff_status_error :
    ∀ r : HttpResponse,
      ((annotateCache r.body r.resultFromCache).status = r.body.status
        ∧ (annotateCache r.body r.resultFromCache).message = r.body.message
        ∧ (annotateCache r.body r.resultFromCache).code = r.body.code)
      ∧ (r.body.status = "error" →
          TracelinkClient.requestResult r =
            .error { message := r.body.message, code := r.body.code,
                     response := annotateCache r.body r.resultFromCache })
      ∧ (r.body.status ≠ "error" →
          TracelinkClient.requestResult r = .ok (annotateCache r.body r.resultFromCache)) := by
  intro r
  obtain ⟨hs, hm, hc⟩ := annotateCache_preserves r.body r.resultFromCache
  refine ⟨⟨hs, hm, hc⟩, fun he => ?_, fun he => ?_⟩
  · unfold TracelinkClient.requestResult
    rw [if_pos (by rw [hs, he]), hm, hc]
  · unfold TracelinkClient.requestResult
    rw [if_neg (by rw [hs]; exact he)]

/-- Witness for the C3 theorem at concrete inputs: an error envelope is
raised with matching message, code and attached response, and an ok
envelope is returned unchanged. -/
theorem dispatcher_raises_iff_status_error_witness :
    TracelinkClient.requestResult
        { body := { status := "error", code := 11, message := "denied" },
          resultFromCache := none } =
      .error { message := "denied", code := 11,
               response := annotateCache
                 { status := "error", code := 11, message := "denied" } none }
    ∧ TracelinkClient.requestResult
        { body := { status := "ok", code := 0, message := "fine" },
          resultFromCache := none } =
      .ok (annotateCache { status := "ok", code := 0, message := "fine" } none) :=
  ⟨(dispatcher_raises_iff_status_error
      { body := { status := "error", code := 11, message := "denied" },
        resultFromCache := none }).2.1 rfl,
   (dispatcher_raises_iff_status_error
      { body := { status := "ok", code := 0, message := "fine" },
        resultFromCache := none }).2.2 (by decide)⟩

/-- C4: when no recognized option assigned a key to the order object the
normalizer returns the empty body — in particular on the empty options
record — and it never returns the wrapper around an empty order object. -/
theorem no_keys_yields_empty_body :
    buildOrderParams {} = .empty
  ∧ (∀ o : ListOptions, (builtOrder o).keyCount = 0 → buildOrderParams o = .empty)
  ∧ (∀ o : ListOptions, buildOrderParams o ≠ .order {}) := by
  refine ⟨by decide, fun o h => ?_, fun o h => ?_⟩
  · unfold buildOrderParams
    rw [if_neg (by rw [h]; exact Nat.lt_irrefl 0)]
  · unfold buildOrderParams at h
    by_cases hk : 0 < (builtOrder o).keyCount
    · rw [if_pos hk] at h
      have : builtOrder o = {} := Body.order.inj h
      rw [this] at hk
      exact absurd hk (by decide)
    · rw [if_neg hk] at h
      exact Body.noConfusion h

/-- Witness for the C4 theorem at concrete inputs: options with all
recognized fields absent or falsy produce the empty body, never the empty
wrapper. -/
theorem no_keys_yields_empty_body_witness :
    buildOrderParams { reverse := false, filter_or := false } = .empty
    ∧ buildOrderParams { page := some 0 } ≠ .order {} :=
  ⟨no_keys_yields_empty_body.2.1 { reverse := false, filter_or := false } (by decide),
   no_keys_yields_empty_body.2.2 { page := some 0 }⟩

/-- C5 counterexample: a sort supplied as the empty string is falsy, so it is
dropped rather than passed through — the result is the empty body with no
sort field, where the claim requires order.sort to equal that string. -/
theorem empty_string_sort_not_passed_through :
    buildOrderParams { sort := .str "" } = .empty
    ∧ (buildOrderParams { sort := .str "" }).orderSort ≠ some "" :=
  ⟨by decide, by decide⟩

/-- C5 (amended): a sort given as a non-empty single string passes through
unchanged to order.sort; a sort given as an ordered sequence of strings is
joined with commas preserving the sequence order; a sort given as the empty
string is falsy and produces no sort field. -/
theorem sort_passthrough_and_comma_join :
    (∀ (o : ListOptions) (s : String), o.sort = .str s → s ≠ "" →
      (buildOrderParams o).orderSort = some s)
  ∧ (∀ (o : ListOptions) (xs : List String), o.sort = .arr xs →
      (buildOrderParams o).orderSort = some (String.intercalate "," xs))
  ∧ (∀ o : ListOptions, o.sort = .str "" → (buildOrderParams o).orderSort = none) := by
  refine ⟨fun o s hs hne => ?_, fun o xs hx => ?_, fun o hs => ?_⟩
  · rw [orderSort_buildOrderParams]
    simp [builtOrder, hs, SortOpt.truthy, SortOpt.joined, hne]
  · rw [orderSort_buildOrderParams]
    simp [builtOrder, hx, SortOpt.truthy, SortOpt.joined]
  · rw [orderSort_buildOrderParams]
    simp [builtOrder, hs, SortOpt.truthy]

/-- Witness for the amended C5 theorem at concrete inputs: the sort string
abc passes through, the two-element sequence joins as a,b, and the
empty-string sort yields no sort field. -/
theorem sort_passthrough_and_comma_join_witness :
    (buildOrderParams { sort := .str "abc" }).orderSort = some "abc"
    ∧ (buildOrderParams { sort := .arr ["a", "b"] }).orderSort =
        some (String.intercalate "," ["a", "b"])
    ∧ (buildOrderParams { sort := .str "", page := some 2 }).orderSort = none :=
  ⟨sort_passthrough_and_comma_join.1 { sort := .str "abc" } "abc" rfl (by decide),
   sort_passthrough_and_comma_join.2.1 { sort := .arr ["a", "b"] } ["a", "b"] rfl,
   sort_passthrough_and_comma_join.2.2 { sort := .str "", page := some 2 } rfl⟩

/-- C6: limit and page are copied verbatim into the order object whenever
they are defined, zero included. -/
theorem limit_page_verbatim_including_zero :
    (∀ (o : ListOptions) (n : Int), o.page = some n →
      (buildOrderParams o).orderPage = some n)
  ∧ (∀ (o : ListOptions) (n : Int), o.limit = some n →
      (buildOrderParams o).orderLimit = some n) := by
  refine ⟨fun o n h => ?_, fun o n h => ?_⟩
  · rw [orderPage_buildOrderParams]
    simp [builtOrder, h]
  · rw [orderLimit_buildOrderParams]
    simp [builtOrder, h]

/-- Witness for the C6 theorem at concrete inputs: page zero and limit zero
are both kept. -/
theorem limit_page_verbatim_including_zero_witness :
    (buildOrderParams { page := some 0 }).orderPage = some 0
    ∧ (buildOrderParams { limit := some 0 }).orderLimit = some 0 :=
  ⟨limit_page_verbatim_including_zero.1 { page := some 0 } 0 rfl,
   limit_page_verbatim_including_zero.2 { limit := some 0 } 0 rfl⟩

/-- C7: order.listModule appends the order-id segment only when the order id
is supplied and truthy (zero and absent skip it), and the suborder segment
only additionally; the three example calls of the claim build exactly the
expected paths. -/
theorem listModule_path_segments :
    (∀ o : ListOptions,
      (OrderClient.listModule "timereg" (some (.num 1040)) none o).endpoint =
        "/tracelink/order/list/module/timereg/1040")
  ∧ (∀ o : ListOptions,
      (OrderClient.listModule "timereg" none none o).endpoint =
        "/tracelink/order/list/module/timereg")
  ∧ (∀ o : ListOptions,
      (OrderClient.listModule "timereg" (some (.num 1040)) (some (.num 7)) o).endpoint =
        "/tracelink/order/list/module/timereg/1040/7")
  ∧ (∀ (m : String) (s : Option JsVal) (o : ListOptions),
      (OrderClient.listModule m none s o).endpoint =
        "/tracelink/order/list/module/" ++ m)
  ∧ (∀ (m : String) (s : Option JsVal) (o : ListOptions),
      (OrderClient.listModule m (some (.num 0)) s o).endpoint =
        "/tracelink/order/list/module/" ++ m) := by
  refine ⟨fun o => rfl, fun o => rfl, fun o => rfl, fun m s o => rfl, fun m s o => ?_⟩
  simp [OrderClient.listModule, truthyOpt, JsVal.truthy]

/-- C8: every delete facade posts to the very endpoint its sibling update
method uses (every dispatched request is a POST), with a body whose object
carries the deletion marker xdelete set to the string 1 together with the
identifier field. -/
theorem deletes_are_marked_updates :
    (∀ (c : ClientConfig) (e : String) (b : Body) (ro : RequestOptions),
      (TracelinkClient.requestWire c e b ro).method = "POST")
  ∧ (∀ (id : JsVal) (data : List (String × JsVal)),
      (OrderClient.delete id).endpoint = (OrderClient.update id data).endpoint
      ∧ (OrderClient.delete id).body.get "xdelete" = some (.str "1")
      ∧ (OrderClient.delete id).body.get "order_id" = some id)
  ∧ (∀ (id : JsVal) (data : List (String × JsVal)),
      (SuborderClient.delete id).endpoint = (SuborderClient.update id data).endpoint
      ∧ (SuborderClient.delete id).body.get "xdelete" = some (.str "1")
      ∧ (SuborderClient.delete id).body.get "order_sub_id" = some id)
  ∧ (∀ (m f : String) (v : JsVal) (data : List (String × JsVal)),
      (OrderClient.deleteModule m f v).endpoint = (OrderClient.updateModule m data).endpoint
      ∧ (OrderClient.deleteModule m f v).body.get "xdelete" = some (.str "1")
      ∧ (f ≠ "xdelete" → (OrderClient.deleteModule m f v).body.get f = some v))
  ∧ (∀ (m f : String) (v : JsVal) (data : List (String × JsVal)),
      (ObjectClient.delete m f v).endpoint = (ObjectClient.update m data).endpoint
      ∧ (ObjectClient.delete m f v).body.get "xdelete" = some (.str "1")
      ∧ (f ≠ "xdelete" → (ObjectClient.delete m f v).body.get f = some v))
  ∧ (∀ (a b f : String) (v : JsVal) (data : List (String × JsVal)),
      (ObjectClient.deleteRelation a b f v).endpoint =
          (ObjectClient.updateRelation a b data).endpoint
      ∧ (ObjectClient.deleteRelation a b f v).body.get "xdelete" = some (.str "1")
      ∧ (f ≠ "xdelete" → (ObjectClient.deleteRelation a b f v).body.get f = some v)) := by
  refine ⟨fun c e b ro => rfl,
    fun id data => ⟨rfl, by simp [OrderClient.delete, Body.get, objGet],
      by simp [OrderClient.delete, Body.get, objGet]⟩,
    fun id data => ⟨rfl, by simp [SuborderClient.delete, Body.get, objGet],
      by simp [SuborderClient.delete, Body.get, objGet]⟩,
    fun m f v data => ⟨rfl, by simp [OrderClient.deleteModule, Body.get, objGet],
      fun hf => by simp [OrderClient.deleteModule, Body.get, objGet, Ne.symm hf]⟩,
    fun m f v data => ⟨rfl, by simp [ObjectClient.delete, Body.get, objGet],
      fun hf => by simp [ObjectClient.delete, Body.get, objGet, Ne.symm hf]⟩,
    fun a b f v data => ⟨rfl, by simp [ObjectClient.deleteRelation, Body.get, objGet],
      fun hf => by simp [ObjectClient.deleteRelation, Body.get, objGet, Ne.symm hf]⟩⟩

/-- Witness for the C8 theorem at concrete inputs: the timereg module delete
and a relation delete target their update endpoints with the marker and the
identifier present. -/
theorem deletes_are_marked_updates_witness :
    (TracelinkClient.requestWire { access_token := "t" } "/tracelink/order/update"
        (OrderClient.delete (.num 4)).body {}).method = "POST"
    ∧ ((OrderClient.deleteModule "timereg" "timereg_id" (.num 5)).endpoint =
          (OrderClient.updateModule "timereg" []).endpoint
        ∧ (OrderClient.deleteModule "timereg" "timereg_id" (.num 5)).body.get "xdelete" =
            some (.str "1"))
    ∧ (OrderClient.deleteModule "timereg" "timereg_id" (.num 5)).body.get "timereg_id" =
        some (.num 5)
    ∧ (ObjectClient.deleteRelation "purchase" "genobj" "rel_id" (.num 9)).body.get "rel_id" =
        some (.num 9) :=
  ⟨deletes_are_marked_updates.1 { access_token := "t" } "/tracelink/order/update"
      (OrderClient.delete (.num 4)).body {},
   ⟨(deletes_are_marked_updates.2.2.2.1 "timereg" "timereg_id" (.num 5) []).1,
    (deletes_are_marked_updates.2.2.2.1 "timereg" "timereg_id" (.num 5) []).2.1⟩,
   (deletes_are_marked_updates.2.2.2.1 "timereg" "timereg_id" (.num 5) []).2.2 (by decide),
   (deletes_are_marked_updates.2.2.2.2.2 "purchase" "genobj" "rel_id" (.num 9) []).2.2
      (by decide)⟩

/-- C9: in order.update, suborder.create and suborder.update the caller data
is spread after the positional identifier field, so a binding of the
identifier key inside the data object overrides the positional argument in
the transmitted body. -/
theorem spread_data_overrides_positional_id :
    (∀ (id v : JsVal) (data : List (String × JsVal)), objGet data "order_id" = some v →
      (OrderClient.update id data).body.get "order_id" = some v)
  ∧ (∀ (id v : JsVal) (data : List (String × JsVal)),
      objGet data "parent_order_id" = some v →
      (SuborderClient.create id data).body.get "parent_order_id" = some v)
  ∧ (∀ (id v : JsVal) (data : List (String × JsVal)),
      objGet data "order_sub_id" = some v →
      (SuborderClient.update id data).body.get "order_sub_id" = some v) := by
  refine ⟨fun id v data h => ?_, fun id v data h => ?_, fun id v data h => ?_⟩ <;>
  · show objGet (_ :: data) _ = some v
    rw [objGet_cons, h]
    rfl

/-- Witness for the C9 theorem at concrete inputs: a data object carrying
its own identifier value wins over the positional argument in all three
facades. -/
theorem spread_data_overrides_positional_id_witness :
    (OrderClient.update (.num 1) [("order_id", .num 9)]).body.get "order_id" = some (.num 9)
    ∧ (SuborderClient.create (.num 2) [("parent_order_id", .num 8)]).body.get
        "parent_order_id" = some (.num 8)
    ∧ (SuborderClient.update (.num 3) [("name", .str "x"), ("order_sub_id", .num 7)]).body.get
        "order_sub_id" = some (.num 7) :=
  ⟨spread_data_overrides_positional_id.1 (.num 1) (.num 9) [("order_id", .num 9)] (by decide),
   spread_data_overrides_positional_id.2.1 (.num 2) (.num 8) [("parent_order_id", .num 8)]
      (by decide),
   spread_data_overrides_positional_id.2.2 (.num 3) (.num 7)
      [("name", .str "x"), ("order_sub_id", .num 7)] (by decide)⟩

/-- C10: any falsy sort (absent, null, or the empty string) produces no sort
field at all in the result, while a sort given as the empty sequence is
truthy and produces order.sort equal to the empty string — on otherwise
empty options, the non-empty result wrapping exactly that field. -/
theorem falsy_sort_vs_empty_sequence :
    (∀ o : ListOptions, o.sort = .str "" → (buildOrderParams o).orderSort = none)
  ∧ (∀ o : ListOptions, o.sort = .undef → (buildOrderParams o).orderSort = none)
  ∧ (∀ o : ListOptions, o.sort = .arr [] → (buildOrderParams o).orderSort = some "")
  ∧ buildOrderParams { sort := .arr [] } = .order { sort := some "" } := by
  refine ⟨fun o h => ?_, fun o h => ?_, fun o h => ?_, by decide⟩
  · rw [orderSort_buildOrderParams]
    simp [builtOrder, h, SortOpt.truthy, SortOpt.joined]
  · rw [orderSort_buildOrderParams]
    simp [builtOrder, h, SortOpt.truthy, SortOpt.joined]
  · rw [orderSort_buildOrderParams]
    simp only [builtOrder, h, SortOpt.truthy, SortOpt.joined]
    decide

/-- Witness for the C10 theorem at concrete inputs: empty-string and absent
sorts yield no sort field even next to other options, and the empty
sequence yields the empty-string sort. -/
theorem falsy_sort_vs_empty_sequence_witness :
    (buildOrderParams { sort := .str "", limit := some 5 }).orderSort = none
    ∧ (buildOrderParams { sort := .undef, page := some 1 }).orderSort = none
    ∧ (buildOrderParams { sort := .arr [], reverse := true }).orderSort = some "" :=
  ⟨falsy_sort_vs_empty_sequence.1 { sort := .str "", limit := some 5 } rfl,
   falsy_sort_vs_empty_sequence.2.1 { sort := .undef, page := some 1 } rfl,
   falsy_sort_vs_empty_sequence.2.2.1 { sort := .arr [], reverse := true } rfl⟩
